import Mathlib

/-!
Verification development for the Django expense-approval implementation
(`src/implementations/django`).  The expense state machine, the
authorization helper methods on `User`, the business-rule validators and
the party resolver are shallowly embedded as executable Lean functions.

Conventions:
* monetary amounts are integers in cents (a `Decimal` with two places);
* dates (`expense_date`, `today`) are integer day numbers; timestamps
  (`created_at`, `now`, `month_start`) are integer instants, so that
  `created_at__gte=month_start` is an integer comparison;
* user references (foreign keys) are `Option Nat` user ids;
* a raised `ValidationError` (or django-fsm `TransitionNotAllowed`, or a
  Python `AttributeError`) is an `Err` value; each transition method
  returns the expense at the point control left the method together with
  `Option Err`, so that a mutation performed before a raise would be
  visible in the result.
-/

inductive Role where
  | employee | manager | finance | compliance | vp | cfo
deriving DecidableEq

inductive ExpenseCategory where
  | travel | meals | accommodation | entertainment | supplies | capital | other
deriving DecidableEq

inductive ExpState where
  | draft | submitted | approved | compliance_hold | rejected | paid
deriving DecidableEq

/-- Errors raised by the transition methods and validators.  All but
`attributeError` model a Django `ValidationError` (or the serializer
validation errors); `wrongState` models django-fsm `TransitionNotAllowed`;
`attributeError` models an unstructured Python `AttributeError`. -/
inductive Err where
  | wrongState
  | notOwner
  | wrongRole
  | notDirectReport
  | limitExceeded
  | missingReceipt
  | monthlyLimitExceeded
  | blacklistedVendor
  | duplicateExpense
  | budgetExceeded
  | entertainmentRequiresExecutive
  | duplicatePayment
  | nonPositiveAmount
  | invalidDescription
  | expenseTooOld
  | futureDated
  | missingReason
  | attributeError
deriving DecidableEq

/-- `authentication.models.User` (the fields the core logic reads). -/
structure User where
  id : Nat
  role : Role
  department : String
  manager : Option Nat
  approval_limit : Option Int
  monthly_expense_limit : Option Int
  is_active : Bool
  is_active_approver : Bool
deriving DecidableEq

/-- Payment details produced by `Expense._generate_payment_details`
(the random `payment_id` uuid is omitted). -/
structure PaymentDetails where
  processed_at : Int
  payment_method : String
  vendor_id : String
  amount : Int
  currency : String
deriving DecidableEq

/-- `expenses.models.Expense`. -/
structure Expense where
  id : Nat
  employee : Nat
  amount : Int
  expense_category : ExpenseCategory
  currency : String
  expense_date : Int
  vendor_id : String
  department : String
  description : String
  state : ExpState
  manager : Option Nat
  finance_user : Option Nat
  compliance_user : Option Nat
  submitted_at : Option Int
  approved_at : Option Int
  approved_by : Option Nat
  processed_at : Option Int
  processed_by : Option Nat
  rejected_at : Option Int
  rejection_reason : String
  flagged_at : Option Int
  flagged_by : Option Nat
  flag_reason : String
  override_reason : String
  payment_details : Option PaymentDetails
  created_at : Int
deriving DecidableEq

/-- `expenses.models.Receipt` (ownership link only; file metadata is
irrelevant to the rules). -/
structure Receipt where
  id : Nat
  expense : Nat
deriving DecidableEq

/-- The database snapshot and clock a transition request runs against:
the user table, the expense table (including the expense being acted
upon, which is persisted before any transition is requested), the
receipt table, the current timestamp `now`, the current date `today`,
and the start-of-month instant `month_start` derived from `now`. -/
structure Env where
  users : List User
  expenses : List Expense
  receipts : List Receipt
  now : Int
  today : Int
  month_start : Int
deriving DecidableEq

/-! ### Settings constants (`expense_approval/settings.py`, in cents) -/

def MAX_AMOUNT_WITHOUT_RECEIPT : Int := 2500
def MAX_EXPENSE_AGE_DAYS : Int := 90
def ENTERTAINMENT_REQUIRES_VP : Int := 20000

/-! ### `User` helper methods (`authentication/models.py`) -/

def get_approval_limit (u : User) : Int := u.approval_limit.getD 0

def get_monthly_expense_limit (u : User) : Int := u.monthly_expense_limit.getD 0

def can_approve_expenses (u : User) : Bool :=
  decide ((u.role = .manager ∨ u.role = .vp ∨ u.role = .cfo) ∧ u.is_active_approver = true)

def can_process_payments (u : User) : Bool :=
  decide (u.role = .finance ∧ u.is_active_approver = true)

def can_audit_expenses (u : User) : Bool :=
  decide (u.role = .compliance ∧ u.is_active_approver = true)

def can_executive_override (u : User) : Bool :=
  decide ((u.role = .vp ∨ u.role = .cfo) ∧ u.is_active_approver = true)

def is_vp (u : User) : Bool := decide (u.role = .vp)

def is_cfo (u : User) : Bool := decide (u.role = .cfo)

def can_approve_amount (u : User) (amount : Int) : Bool :=
  decide (amount ≤ get_approval_limit u)

/-- `User.get_monthly_submitted_amount`: sum of `amount` over all of the
user's expenses with `created_at >= month_start`, whatever their state. -/
def get_monthly_submitted_amount (env : Env) (u : User) : Int :=
  ((env.expenses.filter
      (fun x => decide (x.employee = u.id ∧ env.month_start ≤ x.created_at))).map
    (fun x => x.amount)).sum

/-! ### Rule evaluators (`expenses/models.py` helper methods) -/

def charsStartWith : List Char → List Char → Bool
  | [], _ => true
  | _ :: _, [] => false
  | p :: ps, c :: cs => decide (p = c) && charsStartWith ps cs

def charsHaveSub (pat : List Char) : List Char → Bool
  | [] => charsStartWith pat []
  | c :: cs => charsStartWith pat (c :: cs) || charsHaveSub pat cs

def strContainsSub (pat s : String) : Bool := charsHaveSub pat.toList s.toList

/-- `Expense._is_vendor_blacklisted`. -/
def is_vendor_blacklisted (vendor_id : String) : Bool :=
  decide (vendor_id = "VENDOR_BLACKLISTED" ∨ vendor_id = "SUSPICIOUS_CORP" ∨
          vendor_id = "FRAUD_COMPANY") ||
  (decide (vendor_id ≠ "") && strContainsSub "_BLOCKED" vendor_id)

/-- `Expense._is_duplicate_expense`: another persisted expense by the same
employee with the same vendor, amount and date (excluding itself). -/
def is_duplicate_expense (env : Env) (e : Expense) : Bool :=
  env.expenses.any (fun x =>
    decide (x.employee = e.employee ∧ x.vendor_id = e.vendor_id ∧
            x.amount = e.amount ∧ x.expense_date = e.expense_date ∧ x.id ≠ e.id))

/-- `Expense.receipts.exists()`. -/
def has_receipts (env : Env) (e : Expense) : Bool :=
  env.receipts.any (fun r => decide (r.expense = e.id))

/-- `Expense._get_remaining_department_budget` (cents). -/
def get_remaining_department_budget (department : String) : Int :=
  if department = "Engineering" then 7500000
  else if department = "Marketing" then 4500000
  else if department = "Sales" then 6000000
  else if department = "Finance" then 2500000
  else if department = "HR" then 1500000
  else 3000000

/-- `Expense._has_payment_duplicate` (stub in the source: always false). -/
def has_payment_duplicate (_e : Expense) : Bool := false

/-! ### Party resolver (`expenses/models.py`) -/

/-- `Expense._get_direct_manager` = `self.employee.get_direct_manager()`. -/
def get_direct_manager (env : Env) (e : Expense) : Option Nat :=
  match env.users.find? (fun v => decide (v.id = e.employee)) with
  | some emp => emp.manager
  | none => none

/-- `Expense._get_finance_user`: first active user with role finance AND
department Finance. -/
def get_finance_user (env : Env) : Option Nat :=
  (env.users.find? (fun v =>
    decide (v.role = .finance ∧ v.department = "Finance" ∧ v.is_active = true))).map
    (fun v => v.id)

/-- `Expense._get_compliance_user`: first active user with role compliance. -/
def get_compliance_user (env : Env) : Option Nat :=
  (env.users.find? (fun v =>
    decide (v.role = .compliance ∧ v.is_active = true))).map (fun v => v.id)

/-! ### Business rule validators -/

/-- `Expense._validate_submission_rules`, rules in source order. -/
def validate_submission_rules (env : Env) (u : User) (e : Expense) : Option Err :=
  if e.amount > MAX_AMOUNT_WITHOUT_RECEIPT ∧ has_receipts env e = false then
    some .missingReceipt
  else if get_monthly_submitted_amount env u + e.amount > get_monthly_expense_limit u then
    some .monthlyLimitExceeded
  else if is_vendor_blacklisted e.vendor_id = true then
    some .blacklistedVendor
  else if is_duplicate_expense env e = true then
    some .duplicateExpense
  else none

/-- `Expense._validate_approval_rules`, rules in source order. -/
def validate_approval_rules (u : User) (e : Expense) : Option Err :=
  if e.amount > get_remaining_department_budget e.department then
    some .budgetExceeded
  else if e.expense_category = .entertainment ∧ e.amount > ENTERTAINMENT_REQUIRES_VP ∧
          is_vp u = false ∧ is_cfo u = false then
    some .entertainmentRequiresExecutive
  else none

/-- `Expense._validate_payment_processing_rules`. -/
def validate_payment_processing_rules (e : Expense) : Option Err :=
  if has_payment_duplicate e = true then some .duplicatePayment else none

/-- `Expense._generate_payment_details`. -/
def generate_payment_details (env : Env) (e : Expense) : PaymentDetails :=
  { processed_at := env.now
    payment_method := "ACH_TRANSFER"
    vendor_id := e.vendor_id
    amount := e.amount
    currency := e.currency }

/-! ### The django-fsm transition wrapper and the seven transition bodies -/

/-- Semantics of the `@transition(field=state, source=srcs, target=tgt)`
decorator: if the current state is not among the sources the call raises
`TransitionNotAllowed` without running the body; if the body raises, the
state field is left unchanged (the body's earlier mutations remain on the
object); if the body returns normally, the state is set to the target. -/
def fsmStep (srcs : List ExpState) (tgt : ExpState)
    (body : Expense → Expense × Option Err) (e : Expense) : Expense × Option Err :=
  if srcs.contains e.state then
    match body e with
    | (e1, none) => ({ e1 with state := tgt }, none)
    | (e1, some v) => (e1, some v)
  else (e, some .wrongState)

def allStates : List ExpState :=
  [.draft, .submitted, .approved, .compliance_hold, .rejected, .paid]

/-- Body of `Expense.submit` (statements in source order: owner check,
business rules, party assignment, `submitted_at`).  The guardian
permission updates have no effect on the entities modelled here. -/
def submitBody (env : Env) (u : User) (e : Expense) : Expense × Option Err :=
  if u.id ≠ e.employee then (e, some .notOwner)
  else match validate_submission_rules env u e with
    | some v => (e, some v)
    | none =>
      ({ e with manager := get_direct_manager env e
                finance_user := get_finance_user env
                compliance_user := get_compliance_user env
                submitted_at := some env.now }, none)

/-- Continuation of `Expense.approve` after the role/ownership checks. -/
def approveCont (env : Env) (u : User) (e : Expense) : Expense × Option Err :=
  if can_approve_amount u e.amount = false then (e, some .limitExceeded)
  else match validate_approval_rules u e with
    | some v => (e, some v)
    | none => ({ e with approved_at := some env.now, approved_by := some u.id }, none)

/-- Body of `Expense.approve`.  The Python line
`if user.role == 'manager' and self.manager.id != user.id` dereferences
`self.manager.id` only when the role is manager; a missing manager then
raises `AttributeError`. -/
def approveBody (env : Env) (u : User) (e : Expense) : Expense × Option Err :=
  if can_approve_expenses u = false then (e, some .wrongRole)
  else if u.role = .manager then
    match e.manager with
    | none => (e, some .attributeError)
    | some mid => if mid ≠ u.id then (e, some .notDirectReport) else approveCont env u e
  else approveCont env u e

/-- Body of `Expense.process_payment`. -/
def processPaymentBody (env : Env) (u : User) (e : Expense) : Expense × Option Err :=
  if can_process_payments u = false then (e, some .wrongRole)
  else match validate_payment_processing_rules e with
    | some v => (e, some v)
    | none =>
      ({ e with processed_at := some env.now
                processed_by := some u.id
                payment_details := some (generate_payment_details env e) }, none)

/-- Body of `Expense.reject`. -/
def rejectBody (env : Env) (u : User) (reason : String) (e : Expense) :
    Expense × Option Err :=
  if can_approve_expenses u = false then (e, some .wrongRole)
  else ({ e with rejected_at := some env.now, rejection_reason := reason }, none)

/-- Body of `Expense.withdraw`. -/
def withdrawBody (u : User) (e : Expense) : Expense × Option Err :=
  if u.id ≠ e.employee then (e, some .notOwner)
  else ({ e with submitted_at := none
                 manager := none
                 finance_user := none
                 compliance_user := none }, none)

/-- Body of `Expense.flag_suspicious`. -/
def flagSuspiciousBody (env : Env) (u : User) (reason : String) (e : Expense) :
    Expense × Option Err :=
  if can_audit_expenses u = false then (e, some .wrongRole)
  else ({ e with flagged_at := some env.now
                 flagged_by := some u.id
                 flag_reason := reason }, none)

/-- Body of `Expense.executive_override`. -/
def executiveOverrideBody (env : Env) (u : User) (reason : String) (e : Expense) :
    Expense × Option Err :=
  if can_executive_override u = false then (e, some .wrongRole)
  else ({ e with approved_at := some env.now
                 approved_by := some u.id
                 override_reason := reason }, none)

/-! ### The transition methods (decorator + body) -/

def submit (env : Env) (e : Expense) (u : User) : Expense × Option Err :=
  fsmStep [.draft] .submitted (submitBody env u) e

def approve (env : Env) (e : Expense) (u : User) : Expense × Option Err :=
  fsmStep [.submitted] .approved (approveBody env u) e

def process_payment (env : Env) (e : Expense) (u : User) : Expense × Option Err :=
  fsmStep [.approved] .paid (processPaymentBody env u) e

def reject (env : Env) (e : Expense) (u : User) (reason : String) :
    Expense × Option Err :=
  fsmStep [.submitted, .compliance_hold] .rejected (rejectBody env u reason) e

def withdraw (_env : Env) (e : Expense) (u : User) : Expense × Option Err :=
  fsmStep [.submitted] .draft (withdrawBody u) e

def flag_suspicious (env : Env) (e : Expense) (u : User) (reason : String) :
    Expense × Option Err :=
  fsmStep allStates .compliance_hold (flagSuspiciousBody env u reason) e

def executive_override (env : Env) (e : Expense) (u : User) (reason : String) :
    Expense × Option Err :=
  fsmStep allStates .approved (executiveOverrideBody env u reason) e

/-! ### Transition names, dispatcher and request sequences -/

inductive TransName where
  | submit | approve | reject | withdraw | process_payment
  | flag_suspicious | executive_override
deriving DecidableEq

/-- The `source=` lists of the seven `@transition` decorators. -/
def sourcesOf : TransName → List ExpState
  | .submit => [.draft]
  | .approve => [.submitted]
  | .reject => [.submitted, .compliance_hold]
  | .withdraw => [.submitted]
  | .process_payment => [.approved]
  | .flag_suspicious => allStates
  | .executive_override => allStates

/-- The `target=` states of the seven `@transition` decorators. -/
def targetOf : TransName → ExpState
  | .submit => .submitted
  | .approve => .approved
  | .reject => .rejected
  | .withdraw => .draft
  | .process_payment => .paid
  | .flag_suspicious => .compliance_hold
  | .executive_override => .approved

/-- The body run by each transition method. -/
def bodyOf (env : Env) (t : TransName) (u : User) (reason : String) :
    Expense → Expense × Option Err :=
  match t with
  | .submit => submitBody env u
  | .approve => approveBody env u
  | .reject => rejectBody env u reason
  | .withdraw => withdrawBody u
  | .process_payment => processPaymentBody env u
  | .flag_suspicious => flagSuspiciousBody env u reason
  | .executive_override => executiveOverrideBody env u reason

/-- Invoke one named transition method on an expense. -/
def stepT (env : Env) (t : TransName) (e : Expense) (u : User) (reason : String) :
    Expense × Option Err :=
  fsmStep (sourcesOf t) (targetOf t) (bodyOf env t u reason) e

structure Request where
  t : TransName
  u : User
  reason : String
deriving DecidableEq

/-- Run a sequence of transition requests; a failed request leaves the
expense as the method left it (all methods check before mutating). -/
def runRequests (env : Env) (e : Expense) (reqs : List Request) : Expense :=
  reqs.foldl (fun acc r => (stepT env r.t acc r.u r.reason).1) e

/-! ### Save-time validation and the view-level endpoints -/

/-- `Expense.clean`, checks in source order (`description` empty is
subsumed by length below 10). -/
def cleanCheck (env : Env) (e : Expense) : Option Err :=
  if e.amount ≤ 0 then some .nonPositiveAmount
  else if e.description.length < 10 then some .invalidDescription
  else if e.expense_date < env.today - MAX_EXPENSE_AGE_DAYS then some .expenseTooOld
  else none

/-- `ExpenseCreateSerializer.validate_expense_date`: creation-time date
validation (age check first, then the future check). -/
def validate_expense_date (env : Env) (d : Int) : Option Err :=
  if d < env.today - MAX_EXPENSE_AGE_DAYS then some .expenseTooOld
  else if d > env.today then some .futureDated
  else none

/-- The `submit` view endpoint: run the transition method, then persist
with `save()` which re-runs `clean`; if `clean` raises, the save aborts
and the persisted expense is unchanged. -/
def submit_action (env : Env) (e : Expense) (u : User) : Expense × Option Err :=
  match submit env e u with
  | (e1, none) =>
    match cleanCheck env e1 with
    | none => (e1, none)
    | some v => (e, some v)
  | r => r

/-- The `reject` view endpoint.  The serializer's `reason` field is
`required=False`, so an absent parameter (`none`) skips `validate_reason`
entirely and the view calls the method with `data.get('reason', '')`;
`validate_reason` runs only on a provided value and rejects a provided
blank one. -/
def reject_action (env : Env) (e : Expense) (u : User) (reason : Option String) :
    Expense × Option Err :=
  match reason with
  | some r => if r = "" then (e, some .missingReason) else reject env e u r
  | none => reject env e u ""

/-- The `flag_suspicious` view endpoint (same serializer handling of the
optional `reason` parameter as `reject`). -/
def flag_suspicious_action (env : Env) (e : Expense) (u : User) (reason : Option String) :
    Expense × Option Err :=
  match reason with
  | some r => if r = "" then (e, some .missingReason) else flag_suspicious env e u r
  | none => flag_suspicious env e u ""

/-- The `executive_override` view endpoint: the view checks
`can_executive_override` before the serializer runs; the optional
`reason` parameter is handled like `reject`'s. -/
def executive_override_action (env : Env) (e : Expense) (u : User) (reason : Option String) :
    Expense × Option Err :=
  if can_executive_override u = false then (e, some .wrongRole)
  else match reason with
    | some r => if r = "" then (e, some .missingReason) else executive_override env e u r
    | none => executive_override env e u ""

/-! ### The transition table as a relation -/

/-- `(s, t, s')` is an edge of the transition table: `s` is among the
declared sources of `t` and `s'` is its declared target. -/
def EdgeOk (s : ExpState) (t : TransName) (s' : ExpState) : Prop :=
  (sourcesOf t).contains s = true ∧ s' = targetOf t

/-- States reachable from `s` by following edges of the table. -/
inductive Reach : ExpState → ExpState → Prop
  | refl (s : ExpState) : Reach s s
  | head {s1 s2 s3 : ExpState} (t : TransName) :
      EdgeOk s1 t s2 → Reach s2 s3 → Reach s1 s3

/-! ### Helper lemmas: every body raises before it mutates -/

lemma submitBody_err (env : Env) (u : User) (e e1 : Expense) (v : Err)
    (h : submitBody env u e = (e1, some v)) : e1 = e := by
  unfold submitBody at h
  split at h
  · injection h with h1 _; exact h1.symm
  · split at h
    · injection h with h1 _; exact h1.symm
    · injection h with _ h2; simp at h2

lemma approveCont_err (env : Env) (u : User) (e e1 : Expense) (v : Err)
    (h : approveCont env u e = (e1, some v)) : e1 = e := by
  unfold approveCont at h
  split at h
  · injection h with h1 _; exact h1.symm
  · split at h
    · injection h with h1 _; exact h1.symm
    · injection h with _ h2; simp at h2

lemma approveBody_err (env : Env) (u : User) (e e1 : Expense) (v : Err)
    (h : approveBody env u e = (e1, some v)) : e1 = e := by
  unfold approveBody at h
  split at h
  · injection h with h1 _; exact h1.symm
  · split at h
    · split at h
      · injection h with h1 _; exact h1.symm
      · split at h
        · injection h with h1 _; exact h1.symm
        · exact approveCont_err env u e e1 v h
    · exact approveCont_err env u e e1 v h

lemma processPaymentBody_err (env : Env) (u : User) (e e1 : Expense) (v : Err)
    (h : processPaymentBody env u e = (e1, some v)) : e1 = e := by
  unfold processPaymentBody at h
  split at h
  · injection h with h1 _; exact h1.symm
  · split at h
    · injection h with h1 _; exact h1.symm
    · injection h with _ h2; simp at h2

lemma rejectBody_err (env : Env) (u : User) (r : String) (e e1 : Expense) (v : Err)
    (h : rejectBody env u r e = (e1, some v)) : e1 = e := by
  unfold rejectBody at h
  split at h
  · injection h with h1 _; exact h1.symm
  · injection h with _ h2; simp at h2

lemma withdrawBody_err (u : User) (e e1 : Expense) (v : Err)
    (h : withdrawBody u e = (e1, some v)) : e1 = e := by
  unfold withdrawBody at h
  split at h
  · injection h with h1 _; exact h1.symm
  · injection h with _ h2; simp at h2

lemma flagSuspiciousBody_err (env : Env) (u : User) (r : String) (e e1 : Expense) (v : Err)
    (h : flagSuspiciousBody env u r e = (e1, some v)) : e1 = e := by
  unfold flagSuspiciousBody at h
  split at h
  · injection h with h1 _; exact h1.symm
  · injection h with _ h2; simp at h2

lemma executiveOverrideBody_err (env : Env) (u : User) (r : String) (e e1 : Expense) (v : Err)
    (h : executiveOverrideBody env u r e = (e1, some v)) : e1 = e := by
  unfold executiveOverrideBody at h
  split at h
  · injection h with h1 _; exact h1.symm
  · injection h with _ h2; simp at h2

lemma bodyOf_err (env : Env) (t : TransName) (u : User) (r : String) (e e1 : Expense)
    (v : Err) (h : bodyOf env t u r e = (e1, some v)) : e1 = e := by
  cases t
  case submit => exact submitBody_err env u e e1 v h
  case approve => exact approveBody_err env u e e1 v h
  case reject => exact rejectBody_err env u r e e1 v h
  case withdraw => exact withdrawBody_err u e e1 v h
  case process_payment => exact processPaymentBody_err env u e e1 v h
  case flag_suspicious => exact flagSuspiciousBody_err env u r e e1 v h
  case executive_override => exact executiveOverrideBody_err env u r e e1 v h

/-! ### Helper lemmas: equations for the fsm wrapper -/

lemma fsmStep_eq_of_not_src {srcs : List ExpState} {tgt : ExpState}
    {body : Expense → Expense × Option Err} {e : Expense}
    (hc : srcs.contains e.state = false) :
    fsmStep srcs tgt body e = (e, some .wrongState) := by
  unfold fsmStep
  rw [if_neg (by simpa using hc)]

lemma fsmStep_eq_of_body_err {srcs : List ExpState} {tgt : ExpState}
    {body : Expense → Expense × Option Err} {e e1 : Expense} {v : Err}
    (hc : srcs.contains e.state = true) (hbe : body e = (e1, some v)) :
    fsmStep srcs tgt body e = (e1, some v) := by
  unfold fsmStep
  rw [if_pos hc, hbe]

lemma fsmStep_eq_of_body_ok {srcs : List ExpState} {tgt : ExpState}
    {body : Expense → Expense × Option Err} {e e1 : Expense}
    (hc : srcs.contains e.state = true) (hbe : body e = (e1, none)) :
    fsmStep srcs tgt body e = ({ e1 with state := tgt }, none) := by
  unfold fsmStep
  rw [if_pos hc, hbe]

/-! ### Helper lemmas: one transition request -/

lemma stepT_err (env : Env) (t : TransName) (e : Expense) (u : User) (r : String)
    (e1 : Expense) (v : Err) (h : stepT env t e u r = (e1, some v)) : e1 = e := by
  unfold stepT at h
  by_cases hc : (sourcesOf t).contains e.state = true
  · rcases hbe : bodyOf env t u r e with ⟨e2, err⟩
    cases err with
    | none =>
      rw [fsmStep_eq_of_body_ok hc hbe] at h
      injection h with _ h2; simp at h2
    | some w =>
      rw [fsmStep_eq_of_body_err hc hbe] at h
      injection h with h1 _
      exact h1.symm.trans (bodyOf_err env t u r e e2 w hbe)
  · have hf : (sourcesOf t).contains e.state = false := by simpa using hc
    rw [fsmStep_eq_of_not_src hf] at h
    injection h with h1 _; exact h1.symm

lemma stepT_ok_edge (env : Env) (t : TransName) (e : Expense) (u : User) (r : String)
    (h : (stepT env t e u r).2 = none) :
    EdgeOk e.state t (stepT env t e u r).1.state := by
  unfold stepT at *
  by_cases hc : (sourcesOf t).contains e.state = true
  · rcases hbe : bodyOf env t u r e with ⟨e2, err⟩
    cases err with
    | none => rw [fsmStep_eq_of_body_ok hc hbe]; exact ⟨hc, rfl⟩
    | some w => rw [fsmStep_eq_of_body_err hc hbe] at h; simp at h
  · have hf : (sourcesOf t).contains e.state = false := by simpa using hc
    rw [fsmStep_eq_of_not_src hf] at h
    simp at h

lemma stepT_fst_cases (env : Env) (t : TransName) (e : Expense) (u : User) (r : String) :
    (stepT env t e u r).1 = e ∨ EdgeOk e.state t (stepT env t e u r).1.state := by
  rcases hs : stepT env t e u r with ⟨e1, err⟩
  cases err with
  | none =>
    right
    have := stepT_ok_edge env t e u r (by rw [hs])
    rwa [hs] at this
  | some v => left; exact stepT_err env t e u r e1 v hs

lemma runRequests_reach (env : Env) :
    ∀ (reqs : List Request) (e : Expense),
      Reach e.state (runRequests env e reqs).state := by
  intro reqs
  induction reqs with
  | nil => intro e; exact Reach.refl _
  | cons r rs ih =>
    intro e
    show Reach e.state (runRequests env (stepT env r.t e r.u r.reason).1 rs).state
    rcases stepT_fst_cases env r.t e r.u r.reason with h | h
    · rw [h]; exact ih e
    · exact Reach.head r.t h (ih _)

/-! ### Concrete fixtures used by the witnesses and counterexamples -/

def uEmp : User :=
  { id := 1, role := .employee, department := "Engineering", manager := some 2,
    approval_limit := some 0, monthly_expense_limit := some 200000,
    is_active := true, is_active_approver := true }

def uMgr : User :=
  { id := 2, role := .manager, department := "Engineering", manager := none,
    approval_limit := some 500000, monthly_expense_limit := some 500000,
    is_active := true, is_active_approver := true }

def uVp : User :=
  { id := 3, role := .vp, department := "Engineering", manager := none,
    approval_limit := some 5000000, monthly_expense_limit := some 1000000,
    is_active := true, is_active_approver := true }

def uFin : User :=
  { id := 4, role := .finance, department := "Finance", manager := none,
    approval_limit := some 500000, monthly_expense_limit := some 200000,
    is_active := true, is_active_approver := true }

def uComp : User :=
  { id := 5, role := .compliance, department := "Engineering", manager := none,
    approval_limit := some 500000, monthly_expense_limit := some 200000,
    is_active := true, is_active_approver := true }

/-- A draft expense of 30.00 for travel, with one receipt on file
(see `baseEnv`), created this month, dated five days ago. -/
def baseExp : Expense :=
  { id := 100, employee := 1, amount := 3000, expense_category := .travel,
    currency := "USD", expense_date := 995, vendor_id := "ACME",
    department := "Engineering", description := "team travel expense",
    state := .draft, manager := none, finance_user := none,
    compliance_user := none, submitted_at := none, approved_at := none,
    approved_by := none, processed_at := none, processed_by := none,
    rejected_at := none, rejection_reason := "", flagged_at := none,
    flagged_by := none, flag_reason := "", override_reason := "",
    payment_details := none, created_at := 10050 }

def baseEnv : Env :=
  { users := [uEmp, uMgr, uVp, uFin, uComp], expenses := [baseExp],
    receipts := [{ id := 500, expense := 100 }],
    now := 10100, today := 1000, month_start := 10000 }

/-! ### Claim theorems -/

/-- C1: for every expense and every sequence of transition requests the
resulting state is reachable only via the edges of the transition table
(submit: draft to submitted; approve: submitted to approved; reject:
submitted or compliance_hold to rejected; withdraw: submitted to draft;
process_payment: approved to paid; flag_suspicious: any to
compliance_hold; executive_override: any to approved): every successful
step uses an edge of the table, and a transition invoked from a state
not listed among its sources fails with `wrongState` and leaves the
expense unchanged. -/
theorem claim1_state_reachable_only_via_table (env : Env) (e : Expense) :
    (∀ reqs : List Request, Reach e.state (runRequests env e reqs).state) ∧
    (∀ (t : TransName) (u : User) (r : String),
        (stepT env t e u r).2 = none →
        EdgeOk e.state t (stepT env t e u r).1.state) ∧
    (∀ (t : TransName) (u : User) (r : String),
        (sourcesOf t).contains e.state = false →
        stepT env t e u r = (e, some .wrongState)) := by
  refine ⟨fun reqs => runRequests_reach env reqs e,
          fun t u r h => stepT_ok_edge env t e u r h,
          fun t u r hc => ?_⟩
  unfold stepT
  exact fsmStep_eq_of_not_src hc

theorem claim1_witness :
    Reach baseExp.state
      (runRequests baseEnv baseExp
        [{ t := .submit, u := uEmp, reason := "" },
         { t := .approve, u := uMgr, reason := "" }]).state
    ∧ EdgeOk baseExp.state .submit (stepT baseEnv .submit baseExp uEmp "").1.state
    ∧ stepT baseEnv .approve baseExp uMgr "" = (baseExp, some .wrongState) :=
  ⟨(claim1_state_reachable_only_via_table baseEnv baseExp).1 _,
   (claim1_state_reachable_only_via_table baseEnv baseExp).2.1 .submit uEmp "" (by decide),
   (claim1_state_reachable_only_via_table baseEnv baseExp).2.2 .approve uMgr "" (by decide)⟩

/-- C2: whenever any transition fails (authorization, ownership, state or
business-rule failure), the expense it returns is exactly the expense it
was given: no field is mutated.  This holds because every transition
method performs all its checks before its first field write. -/
theorem claim2_failed_transition_zero_mutation (env : Env) (t : TransName)
    (e : Expense) (u : User) (r : String) (v : Err)
    (h : (stepT env t e u r).2 = some v) : (stepT env t e u r).1 = e :=
  stepT_err env t e u r _ v (by rw [← h])

/-- A 20.00 expense from a blacklisted vendor. -/
def expVend : Expense := { baseExp with id := 101, amount := 2000, vendor_id := "SUSPICIOUS_CORP" }

theorem claim2_witness :
    (stepT baseEnv .submit expVend uEmp "").2 = some .blacklistedVendor
    ∧ (stepT baseEnv .submit expVend uEmp "").1 = expVend :=
  ⟨by decide,
   claim2_failed_transition_zero_mutation baseEnv .submit expVend uEmp ""
     .blacklistedVendor (by decide)⟩

/-! ### Helper lemmas: what each body does on success -/

lemma submitBody_ok (env : Env) (u : User) (e e1 : Expense)
    (h : submitBody env u e = (e1, none)) :
    e1 = { e with manager := get_direct_manager env e
                  finance_user := get_finance_user env
                  compliance_user := get_compliance_user env
                  submitted_at := some env.now } := by
  unfold submitBody at h
  split at h
  · injection h with _ h2; simp at h2
  · split at h
    · injection h with _ h2; simp at h2
    · injection h with h1 _; exact h1.symm

lemma approveCont_ok (env : Env) (u : User) (e e1 : Expense)
    (h : approveCont env u e = (e1, none)) :
    e1 = { e with approved_at := some env.now, approved_by := some u.id } := by
  unfold approveCont at h
  split at h
  · injection h with _ h2; simp at h2
  · split at h
    · injection h with _ h2; simp at h2
    · injection h with h1 _; exact h1.symm

lemma approveBody_ok (env : Env) (u : User) (e e1 : Expense)
    (h : approveBody env u e = (e1, none)) :
    e1 = { e with approved_at := some env.now, approved_by := some u.id } := by
  unfold approveBody at h
  split at h
  · injection h with _ h2; simp at h2
  · split at h
    · split at h
      · injection h with _ h2; simp at h2
      · split at h
        · injection h with _ h2; simp at h2
        · exact approveCont_ok env u e e1 h
    · exact approveCont_ok env u e e1 h

lemma rejectBody_ok (env : Env) (u : User) (r : String) (e e1 : Expense)
    (h : rejectBody env u r e = (e1, none)) :
    e1 = { e with rejected_at := some env.now, rejection_reason := r } := by
  unfold rejectBody at h
  split at h
  · injection h with _ h2; simp at h2
  · injection h with h1 _; exact h1.symm

lemma withdrawBody_ok (u : User) (e e1 : Expense)
    (h : withdrawBody u e = (e1, none)) :
    e1 = { e with submitted_at := none, manager := none,
                  finance_user := none, compliance_user := none } := by
  unfold withdrawBody at h
  split at h
  · injection h with _ h2; simp at h2
  · injection h with h1 _; exact h1.symm

lemma flagSuspiciousBody_ok (env : Env) (u : User) (r : String) (e e1 : Expense)
    (h : flagSuspiciousBody env u r e = (e1, none)) :
    e1 = { e with flagged_at := some env.now, flagged_by := some u.id,
                  flag_reason := r } := by
  unfold flagSuspiciousBody at h
  split at h
  · injection h with _ h2; simp at h2
  · injection h with h1 _; exact h1.symm

lemma executiveOverrideBody_ok (env : Env) (u : User) (r : String) (e e1 : Expense)
    (h : executiveOverrideBody env u r e = (e1, none)) :
    e1 = { e with approved_at := some env.now, approved_by := some u.id,
                  override_reason := r } := by
  unfold executiveOverrideBody at h
  split at h
  · injection h with _ h2; simp at h2
  · injection h with h1 _; exact h1.symm

/-! ### Helper lemmas: what each transition method does on success -/

lemma submit_ok (env : Env) (e : Expense) (u : User)
    (h : (submit env e u).2 = none) :
    submit env e u =
      ({ e with state := .submitted
                manager := get_direct_manager env e
                finance_user := get_finance_user env
                compliance_user := get_compliance_user env
                submitted_at := some env.now }, none) := by
  unfold submit at *
  by_cases hc : ([ExpState.draft].contains e.state) = true
  · rcases hbe : submitBody env u e with ⟨e1, err⟩
    cases err with
    | none =>
      have he1 := submitBody_ok env u e e1 hbe
      subst he1
      rw [fsmStep_eq_of_body_ok hc hbe]
    | some w => rw [fsmStep_eq_of_body_err hc hbe] at h; simp at h
  · rw [fsmStep_eq_of_not_src (by simpa using hc)] at h; simp at h

lemma approve_ok (env : Env) (e : Expense) (u : User)
    (h : (approve env e u).2 = none) :
    approve env e u =
      ({ e with state := .approved, approved_at := some env.now,
                approved_by := some u.id }, none) := by
  unfold approve at *
  by_cases hc : ([ExpState.submitted].contains e.state) = true
  · rcases hbe : approveBody env u e with ⟨e1, err⟩
    cases err with
    | none =>
      have he1 := approveBody_ok env u e e1 hbe
      subst he1
      rw [fsmStep_eq_of_body_ok hc hbe]
    | some w => rw [fsmStep_eq_of_body_err hc hbe] at h; simp at h
  · rw [fsmStep_eq_of_not_src (by simpa using hc)] at h; simp at h

lemma reject_ok (env : Env) (e : Expense) (u : User) (r : String)
    (h : (reject env e u r).2 = none) :
    reject env e u r =
      ({ e with state := .rejected, rejected_at := some env.now,
                rejection_reason := r }, none) := by
  unfold reject at *
  by_cases hc : ([ExpState.submitted, ExpState.compliance_hold].contains e.state) = true
  · rcases hbe : rejectBody env u r e with ⟨e1, err⟩
    cases err with
    | none =>
      have he1 := rejectBody_ok env u r e e1 hbe
      subst he1
      rw [fsmStep_eq_of_body_ok hc hbe]
    | some w => rw [fsmStep_eq_of_body_err hc hbe] at h; simp at h
  · rw [fsmStep_eq_of_not_src (by simpa using hc)] at h; simp at h

lemma flag_suspicious_ok (env : Env) (e : Expense) (u : User) (r : String)
    (h : (flag_suspicious env e u r).2 = none) :
    flag_suspicious env e u r =
      ({ e with state := .compliance_hold, flagged_at := some env.now,
                flagged_by := some u.id, flag_reason := r }, none) := by
  unfold flag_suspicious at *
  by_cases hc : (allStates.contains e.state) = true
  · rcases hbe : flagSuspiciousBody env u r e with ⟨e1, err⟩
    cases err with
    | none =>
      have he1 := flagSuspiciousBody_ok env u r e e1 hbe
      subst he1
      rw [fsmStep_eq_of_body_ok hc hbe]
    | some w => rw [fsmStep_eq_of_body_err hc hbe] at h; simp at h
  · rw [fsmStep_eq_of_not_src (by simpa using hc)] at h; simp at h

lemma executive_override_ok (env : Env) (e : Expense) (u : User) (r : String)
    (h : (executive_override env e u r).2 = none) :
    executive_override env e u r =
      ({ e with state := .approved, approved_at := some env.now,
                approved_by := some u.id, override_reason := r }, none) := by
  unfold executive_override at *
  by_cases hc : (allStates.contains e.state) = true
  · rcases hbe : executiveOverrideBody env u r e with ⟨e1, err⟩
    cases err with
    | none =>
      have he1 := executiveOverrideBody_ok env u r e e1 hbe
      subst he1
      rw [fsmStep_eq_of_body_ok hc hbe]
    | some w => rw [fsmStep_eq_of_body_err hc hbe] at h; simp at h
  · rw [fsmStep_eq_of_not_src (by simpa using hc)] at h; simp at h

lemma withdraw_ok (env : Env) (e : Expense) (u : User)
    (h : (withdraw env e u).2 = none) :
    withdraw env e u =
      ({ e with state := .draft, submitted_at := none, manager := none,
                finance_user := none, compliance_user := none }, none) := by
  unfold withdraw at *
  by_cases hc : ([ExpState.submitted].contains e.state) = true
  · rcases hbe : withdrawBody u e with ⟨e1, err⟩
    cases err with
    | none =>
      have he1 := withdrawBody_ok u e e1 hbe
      subst he1
      rw [fsmStep_eq_of_body_ok hc hbe]
    | some w => rw [fsmStep_eq_of_body_err hc hbe] at h; simp at h
  · rw [fsmStep_eq_of_not_src (by simpa using hc)] at h; simp at h

/-- A submitted copy of `baseExp` with parties assigned. -/
def expSubmitted : Expense :=
  { baseExp with state := .submitted, manager := some 2, finance_user := some 4,
                 compliance_user := some 5, submitted_at := some 10100 }

/-- A submitted expense whose assigned manager is unset. -/
def expSubNoMgr : Expense := { expSubmitted with manager := none }

/-- A second active manager, not the assigned one. -/
def uMgr2 : User := { uMgr with id := 9 }

/-- C9: `withdraw` on a submitted expense by its owning employee succeeds,
returning the expense to draft with `manager`, `finance_user`,
`compliance_user` and `submitted_at` reset to unset and every other field
unchanged (the result is exactly the input record with only those five
fields changed); `withdraw` on a draft expense fails with `wrongState`. -/
theorem claim9_withdraw_frame :
    (∀ (env : Env) (e : Expense) (u : User),
        e.state = .submitted → u.id = e.employee →
        withdraw env e u =
          ({ e with state := .draft, submitted_at := none, manager := none,
                    finance_user := none, compliance_user := none }, none)) ∧
    (∀ (env : Env) (e : Expense) (u : User),
        e.state = .draft → withdraw env e u = (e, some .wrongState)) := by
  constructor
  · intro env e u hs hu
    have hc : ([ExpState.submitted].contains e.state) = true := by rw [hs]; decide
    have hbe : withdrawBody u e =
        ({ e with submitted_at := none, manager := none,
                  finance_user := none, compliance_user := none }, none) := by
      unfold withdrawBody
      rw [if_neg (by simp [hu])]
    unfold withdraw
    rw [fsmStep_eq_of_body_ok hc hbe]
  · intro env e u hs
    unfold withdraw
    exact fsmStep_eq_of_not_src (by rw [hs]; decide)

theorem claim9_witness :
    withdraw baseEnv expSubmitted uEmp =
      ({ expSubmitted with state := .draft, submitted_at := none, manager := none,
                           finance_user := none, compliance_user := none }, none)
    ∧ withdraw baseEnv baseExp uEmp = (baseExp, some .wrongState) :=
  ⟨(claim9_withdraw_frame).1 baseEnv expSubmitted uEmp rfl rfl,
   (claim9_withdraw_frame).2 baseEnv baseExp uEmp rfl⟩

/-- C10: on a submitted expense whose assigned `manager` is unset, approve
by an active approver with role manager raises the unstructured
`AttributeError` (dereferencing `self.manager.id`), not a named denial;
the structured not-direct-report denial is produced only when a manager
is assigned (and differs from the actor). -/
theorem claim10_missing_manager_attribute_error :
    (∀ (env : Env) (e : Expense) (u : User),
        e.state = .submitted → e.manager = none → u.role = .manager →
        u.is_active_approver = true →
        approve env e u = (e, some .attributeError)) ∧
    (∀ (env : Env) (e : Expense) (u : User) (mid : Nat),
        e.state = .submitted → e.manager = some mid → u.role = .manager →
        u.is_active_approver = true → mid ≠ u.id →
        approve env e u = (e, some .notDirectReport)) := by
  constructor
  · intro env e u hs hm hrole hact
    have hc : ([ExpState.submitted].contains e.state) = true := by rw [hs]; decide
    have hca : can_approve_expenses u = true := by
      simp [can_approve_expenses, hrole, hact]
    have hbe : approveBody env u e = (e, some .attributeError) := by
      unfold approveBody
      rw [if_neg (by simp [hca]), if_pos hrole, hm]
    unfold approve
    rw [fsmStep_eq_of_body_err hc hbe]
  · intro env e u mid hs hm hrole hact hneq
    have hc : ([ExpState.submitted].contains e.state) = true := by rw [hs]; decide
    have hca : can_approve_expenses u = true := by
      simp [can_approve_expenses, hrole, hact]
    have hbe : approveBody env u e = (e, some .notDirectReport) := by
      unfold approveBody
      rw [if_neg (by simp [hca]), if_pos hrole, hm]
      simp [hneq]
    unfold approve
    rw [fsmStep_eq_of_body_err hc hbe]

theorem claim10_witness :
    approve baseEnv expSubNoMgr uMgr = (expSubNoMgr, some .attributeError)
    ∧ approve baseEnv expSubmitted uMgr2 = (expSubmitted, some .notDirectReport) :=
  ⟨(claim10_missing_manager_attribute_error).1 baseEnv expSubNoMgr uMgr rfl rfl rfl rfl,
   (claim10_missing_manager_attribute_error).2 baseEnv expSubmitted uMgr2 2 rfl rfl rfl rfl
     (by decide)⟩

lemma allStates_contains (s : ExpState) : allStates.contains s = true := by
  cases s <;> decide

/-- C8 as stated is false for the missing case: a `reject` request whose
`reason` parameter is absent commits — the serializer skips
`validate_reason` for an omitted optional field, the view passes
`data.get('reason', '')` to the method, and the transition succeeds with
an empty `rejection_reason` recorded. -/
theorem claim8_counterexample :
    (reject_action baseEnv expSubmitted uMgr none).2 = none
    ∧ (reject_action baseEnv expSubmitted uMgr none).1.state = .rejected
    ∧ (reject_action baseEnv expSubmitted uMgr none).1.rejection_reason = "" := by
  decide

/-- C8 (amended): for `reject`, `flag_suspicious` and `executive_override`
a reason provided as the empty string is rejected by `validate_reason`
and the transition does not commit; a reason that is absent altogether
skips validation, so an otherwise-authorized request commits with the
empty string recorded in the corresponding reason field; a provided
non-empty reason is recorded in `rejection_reason`, `flag_reason` and
`override_reason` respectively on success. -/
theorem claim8_reason_validation :
    (∀ (env : Env) (e : Expense) (u : User),
        reject_action env e u (some "") = (e, some .missingReason)) ∧
    (∀ (env : Env) (e : Expense) (u : User),
        flag_suspicious_action env e u (some "") = (e, some .missingReason)) ∧
    (∀ (env : Env) (e : Expense) (u : User),
        can_executive_override u = true →
        executive_override_action env e u (some "") = (e, some .missingReason)) ∧
    (∀ (env : Env) (e : Expense) (u : User),
        e.state = .submitted → can_approve_expenses u = true →
        reject_action env e u none =
          ({ e with state := .rejected, rejected_at := some env.now,
                    rejection_reason := "" }, none)) ∧
    (∀ (env : Env) (e : Expense) (u : User),
        can_audit_expenses u = true →
        flag_suspicious_action env e u none =
          ({ e with state := .compliance_hold, flagged_at := some env.now,
                    flagged_by := some u.id, flag_reason := "" }, none)) ∧
    (∀ (env : Env) (e : Expense) (u : User),
        can_executive_override u = true →
        executive_override_action env e u none =
          ({ e with state := .approved, approved_at := some env.now,
                    approved_by := some u.id, override_reason := "" }, none)) ∧
    (∀ (env : Env) (e : Expense) (u : User) (r : String),
        (reject_action env e u (some r)).2 = none →
        (reject_action env e u (some r)).1.rejection_reason = r) ∧
    (∀ (env : Env) (e : Expense) (u : User) (r : String),
        (flag_suspicious_action env e u (some r)).2 = none →
        (flag_suspicious_action env e u (some r)).1.flag_reason = r) ∧
    (∀ (env : Env) (e : Expense) (u : User) (r : String),
        (executive_override_action env e u (some r)).2 = none →
        (executive_override_action env e u (some r)).1.override_reason = r) := by
  refine ⟨?_, ?_, ?_, ?_, ?_, ?_, ?_, ?_, ?_⟩
  · intro env e u
    show (if ("" : String) = "" then (e, some Err.missingReason)
          else reject env e u "") = (e, some Err.missingReason)
    rw [if_pos rfl]
  · intro env e u
    show (if ("" : String) = "" then (e, some Err.missingReason)
          else flag_suspicious env e u "") = (e, some Err.missingReason)
    rw [if_pos rfl]
  · intro env e u hcan
    unfold executive_override_action
    rw [if_neg (by simp [hcan])]
    show (if ("" : String) = "" then (e, some Err.missingReason)
          else executive_override env e u "") = (e, some Err.missingReason)
    rw [if_pos rfl]
  · intro env e u hs hcan
    have hc : ([ExpState.submitted, ExpState.compliance_hold].contains e.state) = true := by
      rw [hs]; decide
    have hbe : rejectBody env u "" e =
        ({ e with rejected_at := some env.now, rejection_reason := "" }, none) := by
      unfold rejectBody
      rw [if_neg (by simp [hcan])]
    show reject env e u "" = _
    unfold reject
    rw [fsmStep_eq_of_body_ok hc hbe]
  · intro env e u hcan
    have hbe : flagSuspiciousBody env u "" e =
        ({ e with flagged_at := some env.now, flagged_by := some u.id,
                  flag_reason := "" }, none) := by
      unfold flagSuspiciousBody
      rw [if_neg (by simp [hcan])]
    show flag_suspicious env e u "" = _
    unfold flag_suspicious
    rw [fsmStep_eq_of_body_ok (allStates_contains e.state) hbe]
  · intro env e u hcan
    have hbe : executiveOverrideBody env u "" e =
        ({ e with approved_at := some env.now, approved_by := some u.id,
                  override_reason := "" }, none) := by
      unfold executiveOverrideBody
      rw [if_neg (by simp [hcan])]
    unfold executive_override_action
    rw [if_neg (by simp [hcan])]
    show executive_override env e u "" = _
    unfold executive_override
    rw [fsmStep_eq_of_body_ok (allStates_contains e.state) hbe]
  · intro env e u r h
    by_cases hr : r = ""
    · subst hr
      have hmr : reject_action env e u (some "") = (e, some .missingReason) := by
        show (if ("" : String) = "" then (e, some Err.missingReason)
              else reject env e u "") = (e, some Err.missingReason)
        rw [if_pos rfl]
      rw [hmr] at h; simp at h
    · have hred : reject_action env e u (some r) = reject env e u r := by
        show (if r = "" then (e, some Err.missingReason)
              else reject env e u r) = reject env e u r
        rw [if_neg hr]
      rw [hred] at h ⊢
      rw [reject_ok env e u r h]
  · intro env e u r h
    by_cases hr : r = ""
    · subst hr
      have hmr : flag_suspicious_action env e u (some "") = (e, some .missingReason) := by
        show (if ("" : String) = "" then (e, some Err.missingReason)
              else flag_suspicious env e u "") = (e, some Err.missingReason)
        rw [if_pos rfl]
      rw [hmr] at h; simp at h
    · have hred : flag_suspicious_action env e u (some r) = flag_suspicious env e u r := by
        show (if r = "" then (e, some Err.missingReason)
              else flag_suspicious env e u r) = flag_suspicious env e u r
        rw [if_neg hr]
      rw [hred] at h ⊢
      rw [flag_suspicious_ok env e u r h]
  · intro env e u r h
    by_cases hcan : can_executive_override u = false
    · have hwr : executive_override_action env e u (some r) = (e, some .wrongRole) := by
        unfold executive_override_action
        rw [if_pos hcan]
      rw [hwr] at h; simp at h
    · by_cases hr : r = ""
      · subst hr
        have hmr : executive_override_action env e u (some "") = (e, some .missingReason) := by
          unfold executive_override_action
          rw [if_neg hcan]
          show (if ("" : String) = "" then (e, some Err.missingReason)
                else executive_override env e u "") = (e, some Err.missingReason)
          rw [if_pos rfl]
        rw [hmr] at h; simp at h
      · have hred : executive_override_action env e u (some r) =
            executive_override env e u r := by
          unfold executive_override_action
          rw [if_neg hcan]
          show (if r = "" then (e, some Err.missingReason)
                else executive_override env e u r) = executive_override env e u r
          rw [if_neg hr]
        rw [hred] at h ⊢
        rw [executive_override_ok env e u r h]

theorem claim8_witness :
    reject_action baseEnv expSubmitted uMgr (some "") = (expSubmitted, some .missingReason)
    ∧ reject_action baseEnv expSubmitted uMgr none =
        ({ expSubmitted with state := .rejected, rejected_at := some baseEnv.now,
                             rejection_reason := "" }, none)
    ∧ (reject_action baseEnv expSubmitted uMgr (some "fraud suspected")).2 = none
    ∧ (reject_action baseEnv expSubmitted uMgr (some "fraud suspected")).1.rejection_reason =
        "fraud suspected" :=
  ⟨(claim8_reason_validation).1 baseEnv expSubmitted uMgr,
   (claim8_reason_validation).2.2.2.1 baseEnv expSubmitted uMgr rfl (by decide),
   by decide,
   (claim8_reason_validation).2.2.2.2.2.2.1 baseEnv expSubmitted uMgr
     "fraud suspected" (by decide)⟩

/-! ### Claim C3: the approval-limit check -/

lemma validate_approval_rules_cases (u : User) (e : Expense) (v : Err)
    (h : validate_approval_rules u e = some v) :
    v = .budgetExceeded ∨ v = .entertainmentRequiresExecutive := by
  unfold validate_approval_rules at h
  split at h
  · left; injection h with h1; exact h1.symm
  · split at h
    · right; injection h with h1; exact h1.symm
    · simp at h

/-- C3: for a submitted expense and an actor permitted to approve it (an
active approver who, if a manager, is the expense's assigned manager),
approve fails with `limitExceeded` exactly when the actor's approval
limit is strictly below the amount; and when the remaining business
rules pass, approve succeeds exactly when the amount is within the
actor's approval limit. -/
theorem claim3_approval_limit_boundary (env : Env) (e : Expense) (u : User)
    (hs : e.state = .submitted) (hca : can_approve_expenses u = true)
    (hm : u.role = .manager → e.manager = some u.id) :
    ((approve env e u).2 = some .limitExceeded ↔ get_approval_limit u < e.amount) ∧
    (validate_approval_rules u e = none →
      ((approve env e u).2 = none ↔ e.amount ≤ get_approval_limit u)) := by
  have hc : ([ExpState.submitted].contains e.state) = true := by rw [hs]; decide
  have hb : approveBody env u e = approveCont env u e := by
    unfold approveBody
    rw [if_neg (by simp [hca])]
    by_cases hrole : u.role = .manager
    · rw [if_pos hrole, hm hrole]; simp
    · rw [if_neg hrole]
  by_cases hlim : e.amount ≤ get_approval_limit u
  · have hcaa : can_approve_amount u e.amount = true := by
      simp [can_approve_amount, hlim]
    constructor
    · constructor
      · intro herr
        rcases hv : validate_approval_rules u e with _ | v
        · have hcont : approveCont env u e =
              ({ e with approved_at := some env.now, approved_by := some u.id }, none) := by
            unfold approveCont
            rw [if_neg (by simp [hcaa]), hv]
          have happ : approve env e u =
              ({ e with state := .approved, approved_at := some env.now,
                        approved_by := some u.id }, none) := by
            unfold approve
            rw [fsmStep_eq_of_body_ok hc (hb.trans hcont)]
          rw [happ] at herr
          simp at herr
        · have hcont : approveCont env u e = (e, some v) := by
            unfold approveCont
            rw [if_neg (by simp [hcaa]), hv]
          have happ : approve env e u = (e, some v) := by
            unfold approve
            rw [fsmStep_eq_of_body_err hc (hb.trans hcont)]
          rw [happ] at herr
          have hv2 : v = .limitExceeded := by simpa using herr
          subst hv2
          rcases validate_approval_rules_cases u e _ hv with h1 | h1 <;> exact Err.noConfusion h1
      · intro hgt
        exact absurd hgt (not_lt.mpr hlim)
    · intro hv
      have hcont : approveCont env u e =
          ({ e with approved_at := some env.now, approved_by := some u.id }, none) := by
        unfold approveCont
        rw [if_neg (by simp [hcaa]), hv]
      have happ : approve env e u =
          ({ e with state := .approved, approved_at := some env.now,
                    approved_by := some u.id }, none) := by
        unfold approve
        rw [fsmStep_eq_of_body_ok hc (hb.trans hcont)]
      rw [happ]
      exact iff_of_true rfl hlim
  · have hcaa : can_approve_amount u e.amount = false := by
      simp [can_approve_amount, hlim]
    have hcont : approveCont env u e = (e, some .limitExceeded) := by
      unfold approveCont
      rw [if_pos hcaa]
    have happ : approve env e u = (e, some .limitExceeded) := by
      unfold approve
      rw [fsmStep_eq_of_body_err hc (hb.trans hcont)]
    refine ⟨?_, ?_⟩
    · rw [happ]
      exact iff_of_true rfl (not_le.mp hlim)
    · intro hv
      rw [happ]
      exact iff_of_false (by simp) hlim

/-- A submitted expense of 5000.01, one cent over the manager limit. -/
def expOverLimit : Expense := { expSubmitted with amount := 500001 }

/-- A submitted expense of exactly 5000.00. -/
def expAtLimit : Expense := { expSubmitted with amount := 500000 }

theorem claim3_witness :
    (approve baseEnv expOverLimit uMgr).2 = some .limitExceeded
    ∧ (approve baseEnv expAtLimit uMgr).2 = none :=
  ⟨(claim3_approval_limit_boundary baseEnv expOverLimit uMgr rfl (by decide)
      (fun _ => rfl)).1.mpr (by decide),
   ((claim3_approval_limit_boundary baseEnv expAtLimit uMgr rfl (by decide)
      (fun _ => rfl)).2 (by decide)).mpr (by decide)⟩

/-! ### Claim C4: the entertainment rule -/

/-- C4 counterexample input: a 250.00 entertainment expense and its
assigned manager whose approval limit is only 100.00. -/
def uMgrLow : User := { uMgr with approval_limit := some 10000 }

/-- A submitted 250.00 entertainment expense. -/
def expEnt250 : Expense :=
  { expSubmitted with amount := 25000, expense_category := .entertainment }

/-- A submitted 200.00 entertainment expense (at the threshold). -/
def expEnt200 : Expense :=
  { expSubmitted with amount := 20000, expense_category := .entertainment }

/-- C4 as stated is false: a manager whose approval limit is below the
amount is denied with `limitExceeded`, not with the
entertainment-requires-executive violation, because the approval-limit
check runs before `_validate_approval_rules`. -/
theorem claim4_counterexample :
    expEnt250.expense_category = .entertainment ∧ expEnt250.amount > 20000
    ∧ uMgrLow.role = .manager ∧ uMgrLow.is_active_approver = true
    ∧ expEnt250.manager = some uMgrLow.id
    ∧ (approve baseEnv expEnt250 uMgrLow).2 = some .limitExceeded
    ∧ (approve baseEnv expEnt250 uMgrLow).2 ≠ some .entertainmentRequiresExecutive := by
  decide

/-- C4 (amended): on a submitted entertainment expense over 200.00 within
budget, an assigned active manager is denied: with
`entertainmentRequiresExecutive` when the amount is within the manager's
approval limit, and with `limitExceeded` when it is not; an active vp or
cfo within limit and budget succeeds; and at 200.00 or below the
entertainment rule does not block the manager. -/
theorem claim4_entertainment_rule (env : Env) (e : Expense) (u : User) :
    (e.state = .submitted → e.expense_category = .entertainment →
        e.amount > ENTERTAINMENT_REQUIRES_VP →
        u.role = .manager → u.is_active_approver = true → e.manager = some u.id →
        e.amount ≤ get_approval_limit u →
        e.amount ≤ get_remaining_department_budget e.department →
        (approve env e u).2 = some .entertainmentRequiresExecutive) ∧
    (e.state = .submitted →
        u.role = .manager → u.is_active_approver = true → e.manager = some u.id →
        get_approval_limit u < e.amount →
        (approve env e u).2 = some .limitExceeded) ∧
    ((u.role = .vp ∨ u.role = .cfo) → e.state = .submitted →
        u.is_active_approver = true →
        e.amount ≤ get_approval_limit u →
        e.amount ≤ get_remaining_department_budget e.department →
        (approve env e u).2 = none) ∧
    (e.state = .submitted → e.expense_category = .entertainment →
        e.amount ≤ ENTERTAINMENT_REQUIRES_VP →
        u.role = .manager → u.is_active_approver = true → e.manager = some u.id →
        e.amount ≤ get_approval_limit u →
        e.amount ≤ get_remaining_department_budget e.department →
        (approve env e u).2 = none) := by
  refine ⟨?_, ?_, ?_, ?_⟩
  · intro hs hcat hamt hrole hact hmgr hlim hbud
    have hc : ([ExpState.submitted].contains e.state) = true := by rw [hs]; decide
    have hca : can_approve_expenses u = true := by
      simp [can_approve_expenses, hrole, hact]
    have hb : approveBody env u e = approveCont env u e := by
      unfold approveBody
      rw [if_neg (by simp [hca]), if_pos hrole, hmgr]
      simp
    have hcaa : can_approve_amount u e.amount = true := by
      simp [can_approve_amount, hlim]
    have hval : validate_approval_rules u e = some .entertainmentRequiresExecutive := by
      unfold validate_approval_rules
      rw [if_neg (not_lt.mpr hbud),
          if_pos ⟨hcat, hamt, by simp [is_vp, hrole], by simp [is_cfo, hrole]⟩]
    have hcont : approveCont env u e = (e, some .entertainmentRequiresExecutive) := by
      unfold approveCont
      rw [if_neg (by simp [hcaa]), hval]
    have happ : approve env e u = (e, some .entertainmentRequiresExecutive) := by
      unfold approve
      rw [fsmStep_eq_of_body_err hc (hb.trans hcont)]
    rw [happ]
  · intro hs hrole hact hmgr hlim
    have hc : ([ExpState.submitted].contains e.state) = true := by rw [hs]; decide
    have hca : can_approve_expenses u = true := by
      simp [can_approve_expenses, hrole, hact]
    have hb : approveBody env u e = approveCont env u e := by
      unfold approveBody
      rw [if_neg (by simp [hca]), if_pos hrole, hmgr]
      simp
    have hcaa : can_approve_amount u e.amount = false := by
      simp [can_approve_amount, not_le.mpr hlim]
    have hcont : approveCont env u e = (e, some .limitExceeded) := by
      unfold approveCont
      rw [if_pos hcaa]
    have happ : approve env e u = (e, some .limitExceeded) := by
      unfold approve
      rw [fsmStep_eq_of_body_err hc (hb.trans hcont)]
    rw [happ]
  · intro hrole hs hact hlim hbud
    have hc : ([ExpState.submitted].contains e.state) = true := by rw [hs]; decide
    have hca : can_approve_expenses u = true := by
      rcases hrole with h | h <;> simp [can_approve_expenses, h, hact]
    have hb : approveBody env u e = approveCont env u e := by
      unfold approveBody
      rw [if_neg (by simp [hca]),
          if_neg (by rcases hrole with h | h <;> simp [h])]
    have hcaa : can_approve_amount u e.amount = true := by
      simp [can_approve_amount, hlim]
    have hval : validate_approval_rules u e = none := by
      unfold validate_approval_rules
      rw [if_neg (not_lt.mpr hbud),
          if_neg (by rcases hrole with h | h <;> simp [is_vp, is_cfo, h])]
    have hcont : approveCont env u e =
        ({ e with approved_at := some env.now, approved_by := some u.id }, none) := by
      unfold approveCont
      rw [if_neg (by simp [hcaa]), hval]
    have happ : approve env e u =
        ({ e with state := .approved, approved_at := some env.now,
                  approved_by := some u.id }, none) := by
      unfold approve
      rw [fsmStep_eq_of_body_ok hc (hb.trans hcont)]
    rw [happ]
  · intro hs hcat hamt hrole hact hmgr hlim hbud
    have hc : ([ExpState.submitted].contains e.state) = true := by rw [hs]; decide
    have hca : can_approve_expenses u = true := by
      simp [can_approve_expenses, hrole, hact]
    have hb : approveBody env u e = approveCont env u e := by
      unfold approveBody
      rw [if_neg (by simp [hca]), if_pos hrole, hmgr]
      simp
    have hcaa : can_approve_amount u e.amount = true := by
      simp [can_approve_amount, hlim]
    have hval : validate_approval_rules u e = none := by
      unfold validate_approval_rules
      rw [if_neg (not_lt.mpr hbud),
          if_neg (by intro hcond; exact absurd hcond.2.1 (not_lt.mpr hamt))]
    have hcont : approveCont env u e =
        ({ e with approved_at := some env.now, approved_by := some u.id }, none) := by
      unfold approveCont
      rw [if_neg (by simp [hcaa]), hval]
    have happ : approve env e u =
        ({ e with state := .approved, approved_at := some env.now,
                  approved_by := some u.id }, none) := by
      unfold approve
      rw [fsmStep_eq_of_body_ok hc (hb.trans hcont)]
    rw [happ]

theorem claim4_witness :
    (approve baseEnv expEnt250 uMgr).2 = some .entertainmentRequiresExecutive
    ∧ (approve baseEnv expEnt250 uVp).2 = none
    ∧ (approve baseEnv expEnt200 uMgr).2 = none :=
  ⟨(claim4_entertainment_rule baseEnv expEnt250 uMgr).1 rfl rfl (by decide) rfl rfl rfl
      (by decide) (by decide),
   (claim4_entertainment_rule baseEnv expEnt250 uVp).2.2.1 (Or.inl rfl) rfl rfl
      (by decide) (by decide),
   (claim4_entertainment_rule baseEnv expEnt200 uMgr).2.2.2 rfl rfl (by decide) rfl rfl rfl
      (by decide) (by decide)⟩

/-! ### Claim C5: the monthly submission limit double-counts the expense -/

/-- Prior expense: 1995.00 submitted earlier this month by employee 1. -/
def expPrior : Expense :=
  { baseExp with id := 110, amount := 199500, created_at := 10020,
                 vendor_id := "VENDA", state := .submitted }

/-- The new 5.00 draft expense, created (and hence persisted) this month. -/
def exp5 : Expense :=
  { baseExp with id := 111, amount := 500, created_at := 10060, vendor_id := "VENDB" }

def env5 : Env := { baseEnv with expenses := [expPrior, exp5] }

/-- C5 failing input: the employee's monthly limit is 2000.00 and 1995.00
was submitted earlier this month; submitting a further 5.00 expense is
rejected with `monthlyLimitExceeded`, because
`get_monthly_submitted_amount` already counts the persisted 5.00 expense
itself (the sum is 2000.00) and the rule then adds its amount again
(2000.00 + 5.00 > 2000.00). -/
theorem claim5_monthly_limit_code_bug :
    get_monthly_expense_limit uEmp = 200000
    ∧ expPrior.amount = 199500 ∧ exp5.amount = 500
    ∧ get_monthly_submitted_amount env5 uEmp = 200000
    ∧ (submit env5 exp5 uEmp).2 = some .monthlyLimitExceeded := by
  decide

/-! ### Claim C6: party resolution filters finance users by department -/

/-- An active finance-role user outside the Finance department. -/
def uFinOps : User := { uFin with id := 7, department := "Operations" }

def env6 : Env := { baseEnv with users := [uEmp, uMgr, uFinOps, uComp] }

/-- C6 as stated is false: the user table contains an active finance-role
user, yet a successful submit leaves `finance_user` unset, because
`_get_finance_user` additionally filters on `department='Finance'`. -/
theorem claim6_counterexample :
    (env6.users.any (fun v => decide (v.role = .finance ∧ v.is_active = true))) = true
    ∧ (submit env6 baseExp uEmp).2 = none
    ∧ (submit env6 baseExp uEmp).1.finance_user = none := by
  decide

/-- C6 (amended): a successful submit assigns `finance_user` to the first
active user with role finance in department "Finance" and
`compliance_user` to the first active user with role compliance; a
non-null `finance_user` is guaranteed exactly when such a
Finance-department finance user exists. -/
theorem claim6_party_resolution (env : Env) (e : Expense) (u : User)
    (h : (submit env e u).2 = none) :
    (submit env e u).1.finance_user = get_finance_user env
    ∧ (submit env e u).1.compliance_user = get_compliance_user env
    ∧ ((env.users.any (fun v =>
          decide (v.role = .finance ∧ v.department = "Finance" ∧ v.is_active = true))) = true →
        ((submit env e u).1.finance_user).isSome = true) := by
  rw [submit_ok env e u h]
  refine ⟨rfl, rfl, ?_⟩
  intro hex
  rw [List.any_eq_true] at hex
  obtain ⟨v, hv, hp⟩ := hex
  unfold get_finance_user
  rw [Option.isSome_map', List.find?_isSome]
  exact ⟨v, hv, hp⟩

theorem claim6_witness :
    (submit baseEnv baseExp uEmp).1.finance_user = get_finance_user baseEnv
    ∧ ((submit baseEnv baseExp uEmp).1.finance_user).isSome = true :=
  ⟨(claim6_party_resolution baseEnv baseExp uEmp (by decide)).1,
   (claim6_party_resolution baseEnv baseExp uEmp (by decide)).2.2 (by decide)⟩

/-! ### Claim C7: date validation at submit versus creation -/

/-- A valid 20.00 draft expense dated tomorrow (`today = 1000`). -/
def expFuture : Expense :=
  { baseExp with id := 120, amount := 2000, expense_date := 1001 }

/-- C7 as stated is false: submitting a future-dated draft expense
succeeds — neither the submit transition nor save-time `clean` checks
for future dates (only the creation serializer does). -/
theorem claim7_counterexample :
    expFuture.expense_date > baseEnv.today
    ∧ expFuture.state = .draft
    ∧ (submit_action baseEnv expFuture uEmp).2 = none := by
  decide

lemma submit_action_of_ok {env : Env} {e : Expense} {u : User} {e1 : Expense}
    (hsub : submit env e u = (e1, none)) :
    submit_action env e u =
      (match cleanCheck env e1 with
       | none => (e1, none)
       | some v => (e, some v)) := by
  unfold submit_action
  rw [hsub]

/-- C7 (amended): the future-date rule is enforced at creation time by
the serializer (`validate_expense_date` rejects any date after today
with `futureDated`), not by submit; submit, through save-time `clean`,
rejects an expense dated more than 90 days in the past with
`expenseTooOld`. -/
theorem claim7_date_rules :
    (∀ (env : Env) (d : Int), env.today < d →
        validate_expense_date env d = some .futureDated) ∧
    (∀ (env : Env) (e : Expense) (u : User),
        e.state = .draft → u.id = e.employee →
        validate_submission_rules env u e = none →
        0 < e.amount → 10 ≤ e.description.length →
        e.expense_date < env.today - MAX_EXPENSE_AGE_DAYS →
        (submit_action env e u).2 = some .expenseTooOld) := by
  constructor
  · intro env d h
    unfold validate_expense_date MAX_EXPENSE_AGE_DAYS
    rw [if_neg (by omega), if_pos h]
  · intro env e u hs hu hvr hamt hdesc hdate
    have hbe : submitBody env u e =
        ({ e with manager := get_direct_manager env e
                  finance_user := get_finance_user env
                  compliance_user := get_compliance_user env
                  submitted_at := some env.now }, none) := by
      unfold submitBody
      rw [if_neg (by simp [hu]), hvr]
    have hsub : submit env e u =
        ({ e with state := .submitted
                  manager := get_direct_manager env e
                  finance_user := get_finance_user env
                  compliance_user := get_compliance_user env
                  submitted_at := some env.now }, none) := by
      unfold submit
      rw [fsmStep_eq_of_body_ok (by rw [hs]; decide) hbe]
    have hcl : cleanCheck env
        { e with state := .submitted
                 manager := get_direct_manager env e
                 finance_user := get_finance_user env
                 compliance_user := get_compliance_user env
                 submitted_at := some env.now } = some .expenseTooOld := by
      have hsame : cleanCheck env
          { e with state := .submitted
                   manager := get_direct_manager env e
                   finance_user := get_finance_user env
                   compliance_user := get_compliance_user env
                   submitted_at := some env.now } = cleanCheck env e := rfl
      rw [hsame]
      unfold cleanCheck
      rw [if_neg (not_le.mpr hamt), if_neg (not_lt.mpr hdesc), if_pos hdate]
    rw [submit_action_of_ok hsub, hcl]

/-- A valid 20.00 draft expense dated 100 days ago. -/
def expOld : Expense :=
  { baseExp with id := 121, amount := 2000, expense_date := 900 }

theorem claim7_witness :
    validate_expense_date baseEnv 1005 = some .futureDated
    ∧ (submit_action baseEnv expOld uEmp).2 = some .expenseTooOld :=
  ⟨(claim7_date_rules).1 baseEnv 1005 (by decide),
   (claim7_date_rules).2 baseEnv expOld uEmp rfl rfl (by decide) (by decide) (by decide)
     (by decide)⟩
